import Mathlib

/-!
Verification development for the pi-homekit-cam streaming session manager
(`src/main.py`): the ffmpeg pipeline template and its rendering, the snapshot
capture invoker (`PiCamera.get_snapshot`), and the stream session supervisor
(`PiCamera.start_stream` / `PiCamera.stop_stream`).  Effectful Python code is
embedded as pure functions over an explicit "world" record describing the OS
layer (spawn results, `os.getpgid`, whether the process exits within the
graceful-shutdown timeout), returning the observable event trace.
-/

namespace PiHomekitCam

/-- A piece of a Python format template: literal text or a `\x7bname\x7d`
substitution field. -/
inductive Tok where
  | lit (s : String)
  | field (name : String)
deriving DecidableEq, Repr

/-- Parse a format template into tokens.  `inField` records whether we are
between `\x7b` and `\x7d`; `acc` holds the characters of the current chunk in
reverse. -/
def parseTpl : List Char → Bool → List Char → List Tok
  | [], false, acc => [Tok.lit (String.mk acc.reverse)]
  | [], true, acc => [Tok.field (String.mk acc.reverse)]
  | c :: rest, false, acc =>
      if c = '\x7b' then Tok.lit (String.mk acc.reverse) :: parseTpl rest true []
      else parseTpl rest false (c :: acc)
  | c :: rest, true, acc =>
      if c = '\x7d' then Tok.field (String.mk acc.reverse) :: parseTpl rest false []
      else parseTpl rest true (c :: acc)

/-- Render parsed tokens against a field lookup; `none` models Python's
`KeyError` when a field of the template is missing from the keyword set. -/
def renderToks (lookup : String → Option String) : List Tok → Option String
  | [] => some ""
  | Tok.lit s :: rest => (renderToks lookup rest).map (fun t => s ++ t)
  | Tok.field f :: rest =>
      match lookup f with
      | none => none
      | some v => (renderToks lookup rest).map (fun t => v ++ t)

/-- Python `tmpl.format(**kwargs)` for templates made of literal text and
plain named fields (the only shape `FFMPEG_CMD` uses). -/
def pyFormat (tmpl : String) (lookup : String → Option String) : Option String :=
  renderToks lookup (parseTpl tmpl.toList false [])

/-- The ffmpeg pipeline command template of `src/main.py` (lines 19-28);
Python's adjacent string literals concatenated, which leaves two spaces
between `\x7bfps\x7d` and `-b`. -/
def FFMPEG_CMD : String :=
  "raspivid -n -ih -t 0 -ex auto -w {width} -h {height} -fps {fps}  -b {v_max_bitrate} -o - | ffmpeg -i - -c:v copy -payload_type 99 -ssrc {v_ssrc} -f rtp -srtp_out_suite AES_CM_128_HMAC_SHA1_80 -srtp_out_params {v_srtp_key} \x27srtp://{address}:{v_port}?rtcpport={v_port}&localrtcpport={v_port}&pkt_size=1378\x27"

/-- The negotiated per-session stream configuration (the keys of the
`stream_config` dict that `FFMPEG_CMD` consumes). -/
structure StreamConfig where
  width : Nat
  height : Nat
  fps : Nat
  v_max_bitrate : Nat
  v_ssrc : Nat
  v_srtp_key : String
  address : String
  v_port : Nat
deriving DecidableEq, Repr

/-- Field lookup of a `StreamConfig`, as `format(**stream_config)` sees it. -/
def fieldsOf (c : StreamConfig) : String → Option String
  | "width" => some (toString c.width)
  | "height" => some (toString c.height)
  | "fps" => some (toString c.fps)
  | "v_max_bitrate" => some (toString c.v_max_bitrate)
  | "v_ssrc" => some (toString c.v_ssrc)
  | "v_srtp_key" => some c.v_srtp_key
  | "address" => some c.address
  | "v_port" => some (toString c.v_port)
  | _ => none

/-- `self.start_stream_cmd.format(**stream_config)` (line 76); the default
`""` is unreachable because `fieldsOf` supplies every template field. -/
def renderStream (c : StreamConfig) : String :=
  (pyFormat FFMPEG_CMD (fieldsOf c)).getD ""

/-! ### Capture invoker (`PiCamera.get_snapshot`, lines 44-68) -/

/-- The `image_size` argument: a dict with `image-width` / `image-height`. -/
structure ImageSize where
  image_width : Nat
  image_height : Nat
deriving DecidableEq, Repr

/-- Result of a completed `subprocess.run(..., capture_output=True)`:
captured stdout bytes and the utf-8 decoded stderr text. -/
structure RunResult where
  stdout : List Nat
  stderr : String
deriving DecidableEq, Repr

/-- The OS layer seen by `get_snapshot`: what `subprocess.run` returns for a
given argument list, for invocations where the tool runs to completion. -/
structure SnapWorld where
  run : List String → RunResult

/-- Log events emitted by `get_snapshot`. -/
inductive SnapLog where
  | debugCmd (cmd : List String)
  | errorStillOutput (output : String)
deriving DecidableEq, Repr

/-- Python's whitespace set for `str.strip()`. -/
def isPySpace (c : Char) : Bool :=
  c = ' ' || c = '\t' || c = '\n' || c = '\x0d' || c = '\x0b' || c = '\x0c'

/-- Python `s.strip()`: remove leading and trailing whitespace. -/
def pyStrip (s : String) : String :=
  String.mk (((s.toList.dropWhile isPySpace).reverse.dropWhile isPySpace).reverse)

/-- The raspistill argument list built by `get_snapshot` (lines 45-53; the
identical literal list is rebuilt at the `subprocess.run` call, lines 55-63). -/
def snapshotCmd (image_size : ImageSize) : List String :=
  ["raspistill", "-n", "-t", "2000", "-ex", "auto", "-mm", "average",
   "-drc", "med", "-w", toString image_size.image_width,
   "-h", toString image_size.image_height, "-o", "-"]

/-- `PiCamera.get_snapshot`: run the capture command, log stderr (stripped)
as an error when non-empty, and return the stdout bytes verbatim.  Returns
the bytes together with the logs emitted. -/
def get_snapshot (w : SnapWorld) (image_size : ImageSize) :
    List Nat × List SnapLog :=
  let cmd := snapshotCmd image_size
  let raspistill := w.run cmd
  let output := pyStrip raspistill.stderr
  let logs :=
    if output ≠ "" then [SnapLog.debugCmd cmd, SnapLog.errorStillOutput output]
    else [SnapLog.debugCmd cmd]
  (raspistill.stdout, logs)

/-! ### Stream session supervisor (`start_stream` / `stop_stream`) -/

/-- The live process handle (`asyncio` subprocess object); only its pid is
observable to the supervisor's logic. -/
structure Proc where
  pid : Nat
deriving DecidableEq, Repr

/-- The `session_info` dict: its `id` key and its optional `process` key
(`session_info.get` of a missing key is `none`). -/
structure Session where
  id : String
  process : Option Proc
deriving DecidableEq, Repr

/-- The OS layer seen by `start_stream`: `asyncio.create_subprocess_shell`
either returns a process handle or raises (modelled as `Except.error` with
the exception text). -/
structure LaunchWorld where
  spawn : String → Except String Proc

/-- Observable outcome of one `start_stream` call.  `config` is the caller's
`stream_config` dict after the call (the source mutates it in place);
`attempted` lists the shell commands passed to the spawner, in order. -/
structure StartResult where
  returned : Bool
  session : Session
  config : StreamConfig
  attempted : List String
  errorLogged : Bool
deriving Repr

/-- `PiCamera.start_stream` (lines 70-93): multiply `v_max_bitrate` by 1000
in place, render the command, spawn it; on a spawn exception log the error
and return `False`; on success store the handle in `session_info` and
return `True`. -/
def start_stream (w : LaunchWorld) (session_info : Session)
    (stream_config : StreamConfig) : StartResult :=
  let stream_config :=
    { stream_config with v_max_bitrate := stream_config.v_max_bitrate * 1000 }
  let cmd := renderStream stream_config
  match w.spawn cmd with
  | Except.error _e =>
      { returned := false, session := session_info, config := stream_config,
        attempted := [cmd], errorLogged := true }
  | Except.ok process =>
      { returned := true,
        session := { session_info with process := some process },
        config := stream_config, attempted := [cmd], errorLogged := false }

/-- The two signals `stop_stream` can send to the process group. -/
inductive Sig where
  | sigterm
  | sigkill
deriving DecidableEq, Repr

/-- Observable events of one `stop_stream` call, in program order. -/
inductive Ev where
  | getpgid (pid : Nat)
  | logInfoStopping
  | killpg (pgid : Nat) (sig : Sig)
  | commWaitTimeout (seconds : Nat)
  | logStderr
  | logErrorTimeout
  | waitUncond
  | logStopped
  | logWarnNoProcess
deriving DecidableEq, Repr

/-- Python exceptions that can escape `stop_stream`. -/
inductive PyExn where
  | attributeError (attr : String)
deriving DecidableEq, Repr

/-- The OS layer seen by `stop_stream`: `os.getpgid` on a live pid, and
whether `communicate()` completes within the 2.0-second `asyncio.wait_for`
bound after the SIGTERM. -/
structure OsWorld where
  getpgid : Nat → Nat
  exitsWithinTimeout : Bool

/-- `PiCamera.stop_stream` (lines 95-123), as the event trace it produces.
`pgid = os.getpgid(ffmpeg_process.pid)` (line 108) runs before the
`if ffmpeg_process:` test (line 109), so a session without a process raises
`AttributeError` (`None` has no attribute `pid`) and the `else` branch that
would log the no-process warning is unreachable in that case (a present
handle is always truthy). -/
def stop_stream (w : OsWorld) (session_info : Session) :
    Except PyExn (List Ev) :=
  let ffmpeg_process := session_info.process
  match ffmpeg_process with
  | none => Except.error (PyExn.attributeError "pid")
  | some p =>
      let pgid := w.getpgid p.pid
      if w.exitsWithinTimeout then
        Except.ok [Ev.getpgid p.pid, Ev.logInfoStopping,
          Ev.killpg pgid Sig.sigterm, Ev.commWaitTimeout 2, Ev.logStderr,
          Ev.logStopped]
      else
        Except.ok [Ev.getpgid p.pid, Ev.logInfoStopping,
          Ev.killpg pgid Sig.sigterm, Ev.commWaitTimeout 2,
          Ev.logErrorTimeout, Ev.killpg pgid Sig.sigkill, Ev.waitUncond,
          Ev.logStopped]

/-- The `killpg` events of a trace, as (process-group id, signal) pairs in
order of occurrence. -/
def sigEvents (tr : List Ev) : List (Nat × Sig) :=
  tr.filterMap fun e =>
    match e with
    | Ev.killpg g s => some (g, s)
    | _ => none

/-- Modelled from the spec: the codec-profile resolution of the
profile-aware supervisor variant, which is not under `src/` (only the
profile-free variant `src/main.py` is).  Ordinal 0 resolves to `baseline`,
1 to `main`, 2 to `high`; any other ordinal is a configuration error. -/
def resolveProfile : Nat → Option String
  | 0 => some "baseline"
  | 1 => some "main"
  | 2 => some "high"
  | _ => none

/-! ### The rendered command, in closed form -/

/-- The token decomposition of `FFMPEG_CMD`. -/
def ffmpegToks : List Tok :=
  [Tok.lit "raspivid -n -ih -t 0 -ex auto -w ", Tok.field "width",
   Tok.lit " -h ", Tok.field "height", Tok.lit " -fps ", Tok.field "fps",
   Tok.lit "  -b ", Tok.field "v_max_bitrate",
   Tok.lit " -o - | ffmpeg -i - -c:v copy -payload_type 99 -ssrc ",
   Tok.field "v_ssrc",
   Tok.lit " -f rtp -srtp_out_suite AES_CM_128_HMAC_SHA1_80 -srtp_out_params ",
   Tok.field "v_srtp_key", Tok.lit " \x27srtp://", Tok.field "address",
   Tok.lit ":", Tok.field "v_port", Tok.lit "?rtcpport=", Tok.field "v_port",
   Tok.lit "&localrtcpport=", Tok.field "v_port",
   Tok.lit "&pkt_size=1378\x27"]

set_option maxRecDepth 10000 in
lemma parse_ffmpeg : parseTpl FFMPEG_CMD.toList false [] = ffmpegToks := by rfl

/-- Rendering `FFMPEG_CMD` against a config substitutes exactly the
recognized fields into the fixed template text. -/
lemma renderStream_eq (c : StreamConfig) :
    renderStream c =
      "raspivid -n -ih -t 0 -ex auto -w " ++ toString c.width ++ " -h " ++
      toString c.height ++ " -fps " ++ toString c.fps ++ "  -b " ++
      toString c.v_max_bitrate ++
      " -o - | ffmpeg -i - -c:v copy -payload_type 99 -ssrc " ++
      toString c.v_ssrc ++
      " -f rtp -srtp_out_suite AES_CM_128_HMAC_SHA1_80 -srtp_out_params " ++
      c.v_srtp_key ++ " \x27srtp://" ++ c.address ++ ":" ++
      toString c.v_port ++ "?rtcpport=" ++ toString c.v_port ++
      "&localrtcpport=" ++ toString c.v_port ++ "&pkt_size=1378\x27" := by
  simp [renderStream, pyFormat, parse_ffmpeg, ffmpegToks, renderToks,
    fieldsOf, String.append_assoc, String.append_empty]

/-! ### Concrete fixtures used by witnesses and counterexamples -/

/-- A spawner that succeeds with a fixed process handle. -/
def okSpawn : LaunchWorld := { spawn := fun _ => Except.ok { pid := 4242 } }

/-- A spawner that raises (executable not found). -/
def failSpawn : LaunchWorld :=
  { spawn := fun _ => Except.error "FileNotFoundError" }

/-- A fresh session, no process handle recorded. -/
def demoSession : Session := { id := "sess1", process := none }

/-- A session holding a live process handle with pid 42. -/
def demoProcSession : Session := { id := "sess2", process := some { pid := 42 } }

/-- A negotiated config with a 300 kbps bitrate ceiling. -/
def demoConfig : StreamConfig :=
  { width := 1280, height := 720, fps := 30, v_max_bitrate := 300,
    v_ssrc := 1, v_srtp_key := "KEY", address := "10.0.0.2", v_port := 5000 }

/-- An OS where the pipeline exits within the graceful 2-second bound. -/
def osGraceful : OsWorld := { getpgid := fun n => n + 100, exitsWithinTimeout := true }

/-- An OS where the pipeline ignores the graceful signal past the bound. -/
def osStuck : OsWorld := { getpgid := fun n => n + 100, exitsWithinTimeout := false }

/-- A completed capture run: 10 bytes of image data and a warning line on
the diagnostic stream. -/
def demoSnapWorld : SnapWorld :=
  { run := fun _ => { stdout := [1, 2, 3, 4, 5, 6, 7, 8, 9, 10],
                      stderr := "warning: something\n" } }

/-- A requested snapshot size. -/
def demoSize : ImageSize := { image_width := 640, image_height := 480 }

/-! ### Helper lemmas about `start_stream` -/

/-- The caller's config after `start_stream`: `v_max_bitrate` multiplied by
1000, every other field untouched, whatever the spawn outcome. -/
lemma start_stream_config (w : LaunchWorld) (si : Session) (c : StreamConfig) :
    (start_stream w si c).config =
      { c with v_max_bitrate := c.v_max_bitrate * 1000 } := by
  rcases hs : w.spawn (renderStream { c with v_max_bitrate := c.v_max_bitrate * 1000 })
    with e | p <;> simp [start_stream, hs]

/-- The only spawn attempt of `start_stream` is the command rendered from
the already-mutated config, whatever the spawn outcome. -/
lemma start_stream_attempted (w : LaunchWorld) (si : Session) (c : StreamConfig) :
    (start_stream w si c).attempted =
      [renderStream { c with v_max_bitrate := c.v_max_bitrate * 1000 }] := by
  rcases hs : w.spawn (renderStream { c with v_max_bitrate := c.v_max_bitrate * 1000 })
    with e | p <;> simp [start_stream, hs]

/-! ### Claims -/

/-- C1: the claim says `stop_stream` on a session with no process handle
logs a warning and returns normally, never raising.  The code resolves
`os.getpgid(ffmpeg_process.pid)` before the `if ffmpeg_process:` test, so
with no handle it raises `AttributeError` instead of reaching the
warning branch — the warning branch of the source is dead for this input.
This theorem evaluates the embedded code at such an input. -/
theorem stop_stream_missing_handle_raises (w : OsWorld) (sid : String) :
    stop_stream w { id := sid, process := none } =
      Except.error (PyExn.attributeError "pid") := rfl

/-- C5: when the spawn call raises, `start_stream` logs the error, returns
`false`, and leaves the session unchanged — no process handle is recorded. -/
theorem start_stream_launch_failure (w : LaunchWorld) (si : Session)
    (c : StreamConfig) (e : String)
    (h : w.spawn (renderStream { c with v_max_bitrate := c.v_max_bitrate * 1000 }) =
      Except.error e) :
    (start_stream w si c).returned = false ∧
    (start_stream w si c).errorLogged = true ∧
    (start_stream w si c).session = si ∧
    (start_stream w si c).session.process = si.process := by
  simp [start_stream, h]

/-- C5 witness: a spawner that raises `FileNotFoundError` on a fresh
session. -/
theorem start_stream_launch_failure_witness :
    (start_stream failSpawn demoSession demoConfig).returned = false ∧
    (start_stream failSpawn demoSession demoConfig).errorLogged = true ∧
    (start_stream failSpawn demoSession demoConfig).session = demoSession ∧
    (start_stream failSpawn demoSession demoConfig).session.process =
      demoSession.process :=
  start_stream_launch_failure failSpawn demoSession demoConfig
    "FileNotFoundError" rfl

/-- C10: `start_stream` mutates the caller's `stream_config` in place —
`v_max_bitrate` is multiplied by 1000 and no other entry changes — before
the launch attempt (the attempted command is rendered from the mutated
config), and the mutation persists even when the spawn raises and the call
returns `false`. -/
theorem start_stream_mutates_config (w : LaunchWorld) (si : Session)
    (c : StreamConfig) :
    (start_stream w si c).config =
      { c with v_max_bitrate := c.v_max_bitrate * 1000 } ∧
    (start_stream w si c).attempted =
      [renderStream { c with v_max_bitrate := c.v_max_bitrate * 1000 }] ∧
    (start_stream failSpawn si c).returned = false ∧
    (start_stream failSpawn si c).config =
      { c with v_max_bitrate := c.v_max_bitrate * 1000 } :=
  ⟨start_stream_config w si c, start_stream_attempted w si c,
   by simp [start_stream, failSpawn], start_stream_config failSpawn si c⟩

set_option maxRecDepth 10000 in
/-- C2 counterexample: the claim says the bitrate is not multiplied by 1000
a second time when `start_stream` is called twice with the same config
object.  With an input ceiling of 300 kbps, the second call (on the config
object the first call mutated in place) renders `-b 300000000`, i.e. the
value is multiplied by 1000 again, and 300000000 is not `1000 * 300`. -/
theorem bitrate_renormalized_on_reuse :
    demoConfig.v_max_bitrate = 300 ∧
    (start_stream okSpawn demoSession
        ((start_stream okSpawn demoSession demoConfig).config)).attempted =
      ["raspivid -n -ih -t 0 -ex auto -w 1280 -h 720 -fps 30  -b 300000000 -o - | ffmpeg -i - -c:v copy -payload_type 99 -ssrc 1 -f rtp -srtp_out_suite AES_CM_128_HMAC_SHA1_80 -srtp_out_params KEY \x27srtp://10.0.0.2:5000?rtcpport=5000&localrtcpport=5000&pkt_size=1378\x27"] ∧
    (start_stream okSpawn demoSession
        ((start_stream okSpawn demoSession demoConfig).config)).config.v_max_bitrate =
      300000000 ∧
    (300000000 : Nat) ≠ 1000 * 300 :=
  ⟨rfl, rfl, rfl, by decide⟩

/-- C2 amended: on each call, `start_stream` substitutes a bitrate equal to
1000 times the value the config holds at call entry — so a first call with
a fresh config renders exactly `1000 × input_kbps` — but the normalization
runs on every call, not once per session: a second call with the same
(mutated-in-place) config object multiplies by 1000 again, rendering
`1000 × 1000 × input_kbps`. -/
theorem bitrate_normalized_per_call (w : LaunchWorld) (si : Session)
    (c : StreamConfig) :
    (start_stream w si c).config.v_max_bitrate = c.v_max_bitrate * 1000 ∧
    (start_stream w si c).attempted =
      ["raspivid -n -ih -t 0 -ex auto -w " ++ toString c.width ++ " -h " ++
        toString c.height ++ " -fps " ++ toString c.fps ++ "  -b " ++
        toString (c.v_max_bitrate * 1000) ++
        " -o - | ffmpeg -i - -c:v copy -payload_type 99 -ssrc " ++
        toString c.v_ssrc ++
        " -f rtp -srtp_out_suite AES_CM_128_HMAC_SHA1_80 -srtp_out_params " ++
        c.v_srtp_key ++ " \x27srtp://" ++ c.address ++ ":" ++
        toString c.v_port ++ "?rtcpport=" ++ toString c.v_port ++
        "&localrtcpport=" ++ toString c.v_port ++ "&pkt_size=1378\x27"] ∧
    (start_stream w si ((start_stream w si c).config)).config.v_max_bitrate =
      c.v_max_bitrate * 1000 * 1000 := by
  refine ⟨?_, ?_, ?_⟩
  · rw [start_stream_config]
  · rw [start_stream_attempted, renderStream_eq]
  · rw [start_stream_config, start_stream_config]

/-- C3: when the process does not exit within the 2-second graceful wait,
`stop_stream` sends exactly one forceful signal (SIGKILL) to the same
process group, after the bounded wait and after the graceful SIGTERM, then
waits unconditionally, and returns only after that wait: the trace ends
with the forced kill, the unconditional wait, and the completion log, with
no further bounded wait. -/
theorem stop_stream_forced_kill_protocol (w : OsWorld) (s : Session) (p : Proc)
    (hp : s.process = some p) (ht : w.exitsWithinTimeout = false) :
    ∃ tr, stop_stream w s = Except.ok tr ∧
      sigEvents tr =
        [(w.getpgid p.pid, Sig.sigterm), (w.getpgid p.pid, Sig.sigkill)] ∧
      ∃ pre, tr = pre ++ [Ev.killpg (w.getpgid p.pid) Sig.sigkill,
          Ev.waitUncond, Ev.logStopped] ∧
        Ev.commWaitTimeout 2 ∈ pre ∧
        sigEvents pre = [(w.getpgid p.pid, Sig.sigterm)] := by
  refine ⟨[Ev.getpgid p.pid, Ev.logInfoStopping,
      Ev.killpg (w.getpgid p.pid) Sig.sigterm, Ev.commWaitTimeout 2,
      Ev.logErrorTimeout, Ev.killpg (w.getpgid p.pid) Sig.sigkill,
      Ev.waitUncond, Ev.logStopped], ?_, ?_,
    ⟨[Ev.getpgid p.pid, Ev.logInfoStopping,
      Ev.killpg (w.getpgid p.pid) Sig.sigterm, Ev.commWaitTimeout 2,
      Ev.logErrorTimeout], rfl, by simp, by simp [sigEvents]⟩⟩
  · simp [stop_stream, hp, ht]
  · simp [sigEvents]

/-- C3 witness: an OS where the pipeline ignores the graceful signal, on a
session holding pid 42 whose process group resolves to 142. -/
theorem stop_stream_forced_kill_protocol_witness :
    ∃ tr, stop_stream osStuck demoProcSession = Except.ok tr ∧
      sigEvents tr = [(142, Sig.sigterm), (142, Sig.sigkill)] ∧
      ∃ pre, tr = pre ++ [Ev.killpg 142 Sig.sigkill,
          Ev.waitUncond, Ev.logStopped] ∧
        Ev.commWaitTimeout 2 ∈ pre ∧
        sigEvents pre = [(142, Sig.sigterm)] :=
  stop_stream_forced_kill_protocol osStuck demoProcSession { pid := 42 } rfl rfl

/-- C4: when the process exits within the 2-second graceful wait,
`stop_stream` sends no forced-kill signal and does not re-send the graceful
one: the only signal of the whole stop operation is the single SIGTERM. -/
theorem stop_stream_graceful_single_signal (w : OsWorld) (s : Session) (p : Proc)
    (hp : s.process = some p) (ht : w.exitsWithinTimeout = true) :
    ∃ tr, stop_stream w s = Except.ok tr ∧
      sigEvents tr = [(w.getpgid p.pid, Sig.sigterm)] ∧
      ∀ g, (g, Sig.sigkill) ∉ sigEvents tr := by
  refine ⟨[Ev.getpgid p.pid, Ev.logInfoStopping,
      Ev.killpg (w.getpgid p.pid) Sig.sigterm, Ev.commWaitTimeout 2,
      Ev.logStderr, Ev.logStopped], ?_, ?_, ?_⟩
  · simp [stop_stream, hp, ht]
  · simp [sigEvents]
  · simp [sigEvents]

/-- C4 witness: an OS where the pipeline exits within the bound, on a
session holding pid 42 whose process group resolves to 142. -/
theorem stop_stream_graceful_single_signal_witness :
    ∃ tr, stop_stream osGraceful demoProcSession = Except.ok tr ∧
      sigEvents tr = [(142, Sig.sigterm)] ∧
      ∀ g, (g, Sig.sigkill) ∉ sigEvents tr :=
  stop_stream_graceful_single_signal osGraceful demoProcSession { pid := 42 }
    rfl rfl

/-- C9: in every `stop_stream` execution that signals (any execution with a
stored handle does), the process group id is resolved from the stored
handle's pid strictly before the first signal — it is the first event of
the trace — every signal sent uses exactly that resolved id, and the id is
never re-resolved later. -/
theorem stop_stream_pgid_resolved_first (w : OsWorld) (s : Session) (p : Proc)
    (hp : s.process = some p) :
    ∃ rest, stop_stream w s = Except.ok (Ev.getpgid p.pid :: rest) ∧
      sigEvents rest ≠ [] ∧
      (∀ g sg, Ev.killpg g sg ∈ rest → g = w.getpgid p.pid) ∧
      ∀ q, Ev.getpgid q ∉ rest := by
  cases ht : w.exitsWithinTimeout
  · refine ⟨[Ev.logInfoStopping, Ev.killpg (w.getpgid p.pid) Sig.sigterm,
      Ev.commWaitTimeout 2, Ev.logErrorTimeout,
      Ev.killpg (w.getpgid p.pid) Sig.sigkill, Ev.waitUncond, Ev.logStopped],
      ?_, by simp [sigEvents], ?_, by simp⟩
    · simp [stop_stream, hp, ht]
    · intro g sg hm
      simp only [List.mem_cons, List.not_mem_nil, or_false] at hm
      rcases hm with h | h | h | h | h | h | h <;> simp_all
  · refine ⟨[Ev.logInfoStopping, Ev.killpg (w.getpgid p.pid) Sig.sigterm,
      Ev.commWaitTimeout 2, Ev.logStderr, Ev.logStopped],
      ?_, by simp [sigEvents], ?_, by simp⟩
    · simp [stop_stream, hp, ht]
    · intro g sg hm
      simp only [List.mem_cons, List.not_mem_nil, or_false] at hm
      rcases hm with h | h | h | h | h <;> simp_all

/-- C9 witness: the stuck OS on a session holding pid 42; the group id 142
is resolved first and used by both signals. -/
theorem stop_stream_pgid_resolved_first_witness :
    ∃ rest, stop_stream osStuck demoProcSession =
        Except.ok (Ev.getpgid 42 :: rest) ∧
      sigEvents rest ≠ [] ∧
      (∀ g sg, Ev.killpg g sg ∈ rest → g = 142) ∧
      ∀ q, Ev.getpgid q ∉ rest :=
  stop_stream_pgid_resolved_first osStuck demoProcSession { pid := 42 } rfl

/-- C6: for a capture run that completes with a non-empty (after trimming)
diagnostic stream, `get_snapshot` still returns the primary output bytes
verbatim — the stdout of the run, of any length including zero — and logs
the trimmed diagnostic as an error; nothing is raised and the bytes are
not suppressed. -/
theorem get_snapshot_returns_bytes (w : SnapWorld) (sz : ImageSize)
    (h : pyStrip (w.run (snapshotCmd sz)).stderr ≠ "") :
    (get_snapshot w sz).1 = (w.run (snapshotCmd sz)).stdout ∧
    (get_snapshot w sz).2 = [SnapLog.debugCmd (snapshotCmd sz),
      SnapLog.errorStillOutput (pyStrip (w.run (snapshotCmd sz)).stderr)] := by
  simp [get_snapshot, h]

/-- C6 witness: a run producing 10 bytes of output and a warning line on
the diagnostic stream returns exactly those 10 bytes and logs the warning. -/
theorem get_snapshot_returns_bytes_witness :
    (get_snapshot demoSnapWorld demoSize).1 = [1, 2, 3, 4, 5, 6, 7, 8, 9, 10] ∧
    (get_snapshot demoSnapWorld demoSize).2 =
      [SnapLog.debugCmd (snapshotCmd demoSize),
       SnapLog.errorStillOutput "warning: something"] :=
  get_snapshot_returns_bytes demoSnapWorld demoSize (by decide)

/-- C7: the codec-profile resolution maps ordinal 0 to `baseline`, 1 to
`main` and 2 to `high`, and rejects every out-of-range ordinal (3 or more)
as a configuration error.  `resolveProfile` is modelled from the spec: the
profile-aware supervisor variant is not under `src/`. -/
theorem resolveProfile_ordinals (n : Nat) (h : 3 ≤ n) :
    resolveProfile 0 = some "baseline" ∧ resolveProfile 1 = some "main" ∧
    resolveProfile 2 = some "high" ∧ resolveProfile n = none := by
  refine ⟨rfl, rfl, rfl, ?_⟩
  rcases n with _ | _ | _ | m
  · exact absurd h (by decide)
  · exact absurd h (by decide)
  · exact absurd h (by decide)
  · rfl

/-- C7 witness: the table at the ordinals 0, 1, 2 and the rejected
ordinal 3. -/
theorem resolveProfile_ordinals_witness :
    3 ≤ 3 ∧ (resolveProfile 0 = some "baseline" ∧
      resolveProfile 1 = some "main" ∧ resolveProfile 2 = some "high" ∧
      resolveProfile 3 = none) :=
  ⟨by decide, resolveProfile_ordinals 3 (by decide)⟩

/-- C8: the rendered pipeline command is a byte-exact rendering of the
fixed `FFMPEG_CMD` template — including the fixed cipher suite identifier
`AES_CM_128_HMAC_SHA1_80` — with only the recognized substitution points
replaced by config values; its transport URI carries the destination
address and port for the data stream (`srtp://address:port`), the
destination port again for the control stream (`rtcpport=port`), the local
control port, and the fixed packet-size parameter `pkt_size=1378`. -/
theorem rendered_command_byte_exact (c : StreamConfig) :
    renderStream c =
      "raspivid -n -ih -t 0 -ex auto -w " ++ toString c.width ++ " -h " ++
      toString c.height ++ " -fps " ++ toString c.fps ++ "  -b " ++
      toString c.v_max_bitrate ++
      " -o - | ffmpeg -i - -c:v copy -payload_type 99 -ssrc " ++
      toString c.v_ssrc ++
      " -f rtp -srtp_out_suite AES_CM_128_HMAC_SHA1_80 -srtp_out_params " ++
      c.v_srtp_key ++ " \x27srtp://" ++ c.address ++ ":" ++
      toString c.v_port ++ "?rtcpport=" ++ toString c.v_port ++
      "&localrtcpport=" ++ toString c.v_port ++ "&pkt_size=1378\x27" ∧
    ∃ pre, renderStream c =
      pre ++ " \x27srtp://" ++ c.address ++ ":" ++ toString c.v_port ++
      "?rtcpport=" ++ toString c.v_port ++ "&localrtcpport=" ++
      toString c.v_port ++ "&pkt_size=1378\x27" := by
  refine ⟨renderStream_eq c, ⟨"raspivid -n -ih -t 0 -ex auto -w " ++
    toString c.width ++ " -h " ++ toString c.height ++ " -fps " ++
    toString c.fps ++ "  -b " ++ toString c.v_max_bitrate ++
    " -o - | ffmpeg -i - -c:v copy -payload_type 99 -ssrc " ++
    toString c.v_ssrc ++
    " -f rtp -srtp_out_suite AES_CM_128_HMAC_SHA1_80 -srtp_out_params " ++
    c.v_srtp_key, ?_⟩⟩
  rw [renderStream_eq]

end PiHomekitCam
